import Mathlib

/-!
# ideup::amqp::Channel

A shallow embedding of `src/ideup/amqp/Channel.cpp`: the channel lifecycle, the
synchronous queue commands and the `basic.consume` frame loop.

The connection (`amqp_connection_state_t`) is modelled by the list of protocol
commands the channel has handed to librabbitmq.  What the broker answers is
data the caller of each operation supplies: the RPC reply of a command, the
`queue.declare-ok` payload, and the successive results of
`amqp_simple_wait_frame`.
-/

namespace ideup.amqp

/-! ## librabbitmq: constants and plain data -/

/-- One octet of a message body. -/
abbrev Byte := Fin 256

/-- Frame type tag of a method frame (`amqp_framing.h`). -/
def AMQP_FRAME_METHOD : Nat := 1
/-- Frame type tag of a content header frame (`amqp_framing.h`). -/
def AMQP_FRAME_HEADER : Nat := 2
/-- Frame type tag of a content body frame (`amqp_framing.h`). -/
def AMQP_FRAME_BODY : Nat := 3
/-- Frame type tag of a heartbeat frame (`amqp_framing.h`). -/
def AMQP_FRAME_HEARTBEAT : Nat := 8
/-- Method id of `basic.deliver`, class 60 method 60 (`amqp_framing.h`). -/
def AMQP_BASIC_DELIVER_METHOD : Nat := 0x003C003C
/-- Reply code 200 (`amqp_framing.h`). -/
def AMQP_REPLY_SUCCESS : Nat := 200

/-- Values of `amqp_response_type_enum`. -/
def AMQP_RESPONSE_NONE : Nat := 0
/-- The RPC completed and the broker answered with the expected method. -/
def AMQP_RESPONSE_NORMAL : Nat := 1
/-- The library failed (socket error, timeout, ...). -/
def AMQP_RESPONSE_LIBRARY_EXCEPTION : Nat := 2
/-- The broker answered with `channel.close` or `connection.close`. -/
def AMQP_RESPONSE_SERVER_EXCEPTION : Nat := 3

/-- The reply record `amqp_rpc_reply_t`: its kind, the id of the method the
broker answered with, and the library error code. -/
structure amqp_rpc_reply_t where
  reply_type : Nat
  reply_id : Nat
  library_error : Int
  deriving DecidableEq, Repr

/-- One received frame, `amqp_frame_t`.  The payload is a C union selected by
the frame type; each constructor carries the member the loop reads for that
type. -/
inductive amqp_frame_t where
  /-- A method frame, with `payload.method.id`. -/
  | method (id : Nat)
  /-- A content header frame, with `payload.properties.body_size`. -/
  | header (body_size : Nat)
  /-- A content body frame, with `payload.body_fragment`. -/
  | body (body_fragment : List Byte)
  /-- A heartbeat frame. -/
  | heartbeat
  deriving DecidableEq, Repr

/-- The field `frame_type` of a frame. -/
def amqp_frame_t.frame_type : amqp_frame_t → Nat
  | .method _ => AMQP_FRAME_METHOD
  | .header _ => AMQP_FRAME_HEADER
  | .body _ => AMQP_FRAME_BODY
  | .heartbeat => AMQP_FRAME_HEARTBEAT

/-- The member `payload.method.id`, read by the loop on method frames only. -/
def amqp_frame_t.method_id : amqp_frame_t → Nat
  | .method id => id
  | _ => 0

/-- The member `payload.properties.body_size`, read on header frames only. -/
def amqp_frame_t.body_size : amqp_frame_t → Nat
  | .header n => n
  | _ => 0

/-- The member `payload.body_fragment`, read on body frames only. -/
def amqp_frame_t.body_fragment : amqp_frame_t → List Byte
  | .body bs => bs
  | _ => []

/-- What one call of `amqp_simple_wait_frame(conn_, &frame)` hands back: the
status it returns and the frame it stored.  A negative status is a failure and
the frame is then not looked at. -/
structure WaitResult where
  result : Int
  frame : amqp_frame_t
  deriving DecidableEq, Repr

/-- A wait that succeeded (status `0`) with the given frame. -/
def WaitResult.received (f : amqp_frame_t) : WaitResult := ⟨0, f⟩

/-- Number of values of `size_t` (a 64-bit target). -/
def SIZE_T_RANGE : Nat := 2 ^ 64

/-- The function `amqp_cstring_bytes(s.c_str())`: the bytes of the C string, which
ends at the first NUL character. -/
def amqp_cstring_bytes (s : String) : String :=
  String.mk (s.data.takeWhile (fun c => c ≠ Char.ofNat 0))

/-- The payload `amqp_queue_declare_ok_t` of the reply to `queue.declare`; `queue`
is `none` when `queue.bytes` is `NULL`. -/
structure amqp_queue_declare_ok_t where
  queue : Option String
  deriving DecidableEq, Repr

/-- A protocol command handed to librabbitmq, with the arguments of the call. -/
inductive Command where
  | channel_open (channel : Int)
  | channel_close (channel : Int) (code : Nat)
  | queue_declare (channel : Int) (queue : String)
      (passive durable exclusive auto_delete : Nat)
  | queue_bind (channel : Int) (queue exchange routing_key : String)
  | queue_unbind (channel : Int) (queue exchange routing_key : String)
  | basic_consume (channel : Int) (queue consumer_tag : String)
      (no_local no_ack exclusive : Nat)
  | queue_delete (channel : Int) (queue : String) (if_unused if_empty : Nat)
  deriving DecidableEq, Repr

/-- The shared connection, seen from the channel: the commands sent so far,
oldest first. -/
structure Connection where
  sent : List Command
  deriving DecidableEq, Repr

/-- Hand one command to the connection. -/
def Connection.send (c : Connection) (cmd : Command) : Connection :=
  { sent := c.sent ++ [cmd] }

/-! ## Collaborators of `Channel` -/

/-- Modelled from the spec: `Exception.hpp` is missing.  An exception carries its
message and, when it was built from one, the broker's RPC reply (file and line
are left out). -/
structure Exception where
  message : String
  reply : Option amqp_rpc_reply_t
  deriving DecidableEq, Repr

/-- Modelled from the spec: `Message.hpp` is missing.  A message is an opaque
byte payload with its length. -/
structure Message where
  payload : List Byte
  length : Nat
  deriving DecidableEq, Repr

/-- Modelled from the spec: `Message.hpp` is missing.  The constructor
`Message(data, len)` wraps the first `len` bytes at `data`. -/
def Message.ofBytes (data : List Byte) (len : Nat) : Message :=
  { payload := data.take len, length := len }

/-- Modelled from the spec: `Queue.hpp` is missing.  The options of
`queue.declare`. -/
inductive QueueArg where
  | QUEUE_PASSIVE | QUEUE_DURABLE | QUEUE_EXCLUSIVE | QUEUE_AUTO_DELETE
  deriving DecidableEq, Repr

/-- Modelled from the spec: `Queue.hpp` is missing.  The options of
`basic.consume`. -/
inductive ConsumerArg where
  | CONSUMER_NO_LOCAL | CONSUMER_NO_ACK | CONSUMER_EXCLUSIVE
  deriving DecidableEq, Repr

/-- Modelled from the spec: `Queue.hpp` is missing.  The options of
`queue.delete`. -/
inductive DeleteArg where
  | QUEUE_IF_UNUSED | QUEUE_IF_EMPTY
  deriving DecidableEq, Repr

/-- Modelled from the spec: `Queue.hpp` is missing.  A set of independent boolean
options, given by the options that are switched on; a default-constructed set
is empty. -/
structure FlagSet (α : Type) where
  flags : List α
  deriving DecidableEq, Repr

/-- The member `test` of a flag set. -/
def FlagSet.test {α : Type} [DecidableEq α] (s : FlagSet α) (a : α) : Bool :=
  decide (a ∈ s.flags)

/-- Modelled from the spec: `Queue.hpp` is missing.  A queue handle: its name
and its consumer tag, empty until a consumer is started. -/
structure Queue where
  name : String
  consumerTag : String
  deriving DecidableEq, Repr

/-- The getter `Queue::getName`. -/
def Queue.getName (q : Queue) : String := q.name

/-- The getter `Queue::getConsumerTag`. -/
def Queue.getConsumerTag (q : Queue) : String := q.consumerTag

/-! ## The consume loop -/

/-- The three calls of `amqp_simple_wait_frame` in the loop: for the next method
frame, for the content header, for a body fragment. -/
inductive Stage where
  | method | header | body
  deriving DecidableEq, Repr

/-- How a run of `sendBasicConsumeCommand` over a finite script of wait results
ends. -/
inductive Outcome where
  /-- A `throw`. -/
  | raised (e : Exception)
  /-- The `return` inside the body loop. -/
  | returned
  /-- The script is used up: the call blocks in the wait of this stage. -/
  | waiting (s : Stage)
  deriving DecidableEq, Repr

/-- One `memcpy` into the receive buffer: the offset `body_received` it writes
at, the fragment length, and the size the buffer was allocated with. -/
structure Copy where
  offset : Nat
  len : Nat
  capacity : Nat
  deriving DecidableEq, Repr

/-- What is observable of a run of the loop: the messages passed to
`queue->notify`, the copies into receive buffers, the number of calls of
`amqp_simple_wait_frame` (the failed one and the one that blocks included), and
how the run ends. -/
structure Run where
  notified : List Message
  copies : List Copy
  waits : Nat
  outcome : Outcome
  deriving DecidableEq, Repr

/-- A run that ends at once. -/
def Run.stop (o : Outcome) : Run :=
  { notified := [], copies := [], waits := 0, outcome := o }

/-- One more call of `amqp_simple_wait_frame` precedes the rest of the run. -/
def Run.afterWait (r : Run) : Run := { r with waits := r.waits + 1 }

/-- One `memcpy` precedes the rest of the run. -/
def Run.afterCopy (c : Copy) (r : Run) : Run := { r with copies := c :: r.copies }

/-- One call of `queue->notify(msg)` precedes the rest of the run. -/
def Run.afterNotify (m : Message) (r : Run) : Run :=
  { r with notified := m :: r.notified }

/-- The call `amqp_bytes_malloc(n)`: a buffer of `n` bytes.  C leaves its
contents unspecified; they are zero here. -/
def amqp_bytes_malloc (n : Nat) : List Byte := List.replicate n 0

/-- The call `memcpy(body.bytes + offset, fragment.bytes, fragment.len)`, as far as
the buffer sees it: the bytes that fall inside the buffer are replaced, those
past its end land outside of it. -/
def memcpy (body : List Byte) (offset : Nat) (fragment : List Byte) : List Byte :=
  (body.take offset ++ fragment ++ body.drop (offset + fragment.length)).take body.length

mutual
/-- The loop `while (true)` of `sendBasicConsumeCommand` (lines 163-220),
run on the successive results of `amqp_simple_wait_frame`.  The call
`amqp_maybe_release_buffers` has no effect the caller can see and is left out;
`body_size` is the header's 64-bit field read into a `size_t`. -/
def consumeLoop (ws : List WaitResult) : Run :=
  match ws with
  | [] => (Run.stop (.waiting .method)).afterWait
  | w :: ws1 =>
    if w.result < 0 then
      (Run.stop (.raised ⟨"Error in header frame", none⟩)).afterWait
    else if w.frame.frame_type ≠ AMQP_FRAME_METHOD then
      (consumeLoop ws1).afterWait
    else if w.frame.method_id ≠ AMQP_BASIC_DELIVER_METHOD then
      (consumeLoop ws1).afterWait
    else
      match ws1 with
      | [] => (Run.stop (.waiting .header)).afterWait.afterWait
      | h :: ws2 =>
        if h.result < 0 then
          (Run.stop (.raised ⟨"Message frame is invalid!", none⟩)).afterWait.afterWait
        else if h.frame.frame_type ≠ AMQP_FRAME_HEADER then
          (Run.stop (.raised ⟨"Expected header!", none⟩)).afterWait.afterWait
        else
          let body_size := h.frame.body_size % SIZE_T_RANGE
          (bodyLoop body_size 0 (amqp_bytes_malloc body_size) ws2).afterWait.afterWait
termination_by 2 * ws.length
decreasing_by all_goals (simp_wf <;> omega)

/-- The loop `while (body_received < body_size)` (lines 200-214) followed by the
rest of the iteration (lines 216-219) and the next iterations. -/
def bodyLoop (body_size body_received : Nat) (body : List Byte) (ws : List WaitResult) : Run :=
  if body_received < body_size then
    match ws with
    | [] => (Run.stop (.waiting .body)).afterWait
    | w :: ws1 =>
      if w.result < 0 then
        (Run.stop .returned).afterWait
      else if w.frame.frame_type ≠ AMQP_FRAME_BODY then
        (Run.stop (.raised ⟨"Expected body frame!", none⟩)).afterWait
      else
        let fragment := w.frame.body_fragment
        ((bodyLoop body_size ((body_received + fragment.length) % SIZE_T_RANGE)
            (memcpy body body_received fragment) ws1).afterCopy
          ⟨body_received, fragment.length, body.length⟩).afterWait
  else
    (consumeLoop ws).afterNotify (Message.ofBytes body body.length)
termination_by 2 * ws.length + 1
decreasing_by all_goals simp_wf
end


/-! ## Channel -/

/-- The class `Channel`: the connection it talks over and its channel number. -/
structure Channel where
  conn_ : Connection
  number_ : Int
  deriving DecidableEq, Repr

/-- The result of a member function: what it returns or throws, and the channel
afterwards. -/
structure Result (α : Type) where
  value : Except Exception α
  channel : Channel

/-- The constructor `Channel::Channel(conn, number)` (lines 14-19).  `reply`
is the broker's answer to `channel.open`; the constructor does not look at it. -/
def Channel.ctor (conn : Connection) (number : Int) (reply : amqp_rpc_reply_t) :
    Except Exception Channel :=
  let _ := reply
  .ok { conn_ := conn.send (.channel_open number), number_ := number }

/-- How a call of the destructor ends, seen from the code that destroys the
channel. -/
inductive Teardown where
  /-- The destructor returns. -/
  | completed
  /-- An exception leaves the destructor and reaches the caller, who can catch
  it. -/
  | raised (e : Exception)
  /-- An exception is thrown inside a destructor that is `noexcept`:
  `std::terminate` is called with `e` active and the program ends; the caller
  gets nothing. -/
  | terminated (e : Exception)
  deriving DecidableEq, Repr

/-- What a call of the destructor leaves behind: the connection afterwards and
how the call ended. -/
structure Destroyed where
  conn : Connection
  outcome : Teardown
  deriving DecidableEq, Repr

/-- The destructor `Channel::~Channel()` (lines 22-30).  `ret` is what
`amqp_channel_close` returns.  The destructor is declared `virtual ~Channel();`
with no exception specification (`Channel.hpp`, line 59) in code that needs
C++11 (`auto`, lines 35, 132, 226), so it is `noexcept`: the `throw` of line 28
cannot leave it and ends the program through `std::terminate`. -/
def Channel.dtor (self : Channel) (ret : amqp_rpc_reply_t) : Destroyed :=
  let conn1 := self.conn_.send (.channel_close self.number_ AMQP_REPLY_SUCCESS)
  if ret.reply_type ≠ AMQP_RESPONSE_NORMAL then
    ⟨conn1, .terminated ⟨"Error closing channel.", some ret⟩⟩
  else
    ⟨conn1, .completed⟩

/-- The member `Channel::sendDeclareCommand` (lines 46-73).  `r` is what
`amqp_queue_declare` returns and `ret` what `amqp_get_rpc_reply` returns next;
`r` is read on a normal reply only. -/
def Channel.sendDeclareCommand (self : Channel) (name : String) (args : FlagSet QueueArg)
    (r : amqp_queue_declare_ok_t) (ret : amqp_rpc_reply_t) : Result Queue :=
  if name.length = 0 then
    ⟨.error ⟨"The queue must have a name", none⟩, self⟩
  else
    let self1 := { self with
      conn_ := self.conn_.send (.queue_declare self.number_ (amqp_cstring_bytes name)
        (if args.test .QUEUE_PASSIVE then 1 else 0)
        (if args.test .QUEUE_DURABLE then 1 else 0)
        (if args.test .QUEUE_EXCLUSIVE then 1 else 0)
        (if args.test .QUEUE_AUTO_DELETE then 1 else 0)) }
    if ret.reply_type ≠ AMQP_RESPONSE_NORMAL then
      ⟨.error ⟨"Error declaring queue.", some ret⟩, self1⟩
    else
      match r.queue with
      | none => ⟨.error ⟨"Out of memory while copying queue name.", none⟩, self1⟩
      | some queue => ⟨.ok { name := queue, consumerTag := "" }, self1⟩

/-- The overload `Channel::declareQueue(name)` (lines 33-37). -/
def Channel.declareQueue (self : Channel) (name : String)
    (r : amqp_queue_declare_ok_t) (ret : amqp_rpc_reply_t) : Result Queue :=
  let args : FlagSet QueueArg := ⟨[]⟩
  self.sendDeclareCommand name args r ret

/-- The overload `Channel::declareQueue(name, args)` (lines 40-43). -/
def Channel.declareQueueArgs (self : Channel) (name : String) (args : FlagSet QueueArg)
    (r : amqp_queue_declare_ok_t) (ret : amqp_rpc_reply_t) : Result Queue :=
  self.sendDeclareCommand name args r ret

/-- The double quote character written `\"` in the source. -/
def dq : String := String.singleton (Char.ofNat 34)

/-- The member `Channel::sendBindCommand` (lines 82-100). -/
def Channel.sendBindCommand (self : Channel) (queue_name exchange_name routing_key : String)
    (ret : amqp_rpc_reply_t) : Result Unit :=
  let self1 := { self with
    conn_ := self.conn_.send (.queue_bind self.number_ (amqp_cstring_bytes queue_name)
      (amqp_cstring_bytes exchange_name) (amqp_cstring_bytes routing_key)) }
  if ret.reply_type ≠ AMQP_RESPONSE_NORMAL then
    let ss := "Cannot bind queue " ++ dq ++ queue_name ++ dq ++ " to exchange " ++ dq
      ++ exchange_name ++ dq ++ " with key " ++ dq ++ routing_key ++ dq ++ "."
    ⟨.error ⟨ss, some ret⟩, self1⟩
  else
    ⟨.ok (), self1⟩

/-- The member `Channel::bindQueue` (lines 76-79). -/
def Channel.bindQueue (self : Channel) (queue_name exchange_name routing_key : String)
    (ret : amqp_rpc_reply_t) : Result Unit :=
  self.sendBindCommand queue_name exchange_name routing_key ret

/-- The member `Channel::sendUnbindCommand` (lines 109-127). -/
def Channel.sendUnbindCommand (self : Channel) (queue_name exchange_name routing_key : String)
    (ret : amqp_rpc_reply_t) : Result Unit :=
  let self1 := { self with
    conn_ := self.conn_.send (.queue_unbind self.number_ (amqp_cstring_bytes queue_name)
      (amqp_cstring_bytes exchange_name) (amqp_cstring_bytes routing_key)) }
  if ret.reply_type ≠ AMQP_RESPONSE_NORMAL then
    let ss := "Cannot unbind queue " ++ dq ++ queue_name ++ dq ++ " to exchange " ++ dq
      ++ exchange_name ++ dq ++ " with key " ++ dq ++ routing_key ++ dq ++ "."
    ⟨.error ⟨ss, some ret⟩, self1⟩
  else
    ⟨.ok (), self1⟩

/-- The member `Channel::unbindQueue` (lines 103-106). -/
def Channel.unbindQueue (self : Channel) (queue_name exchange_name routing_key : String)
    (ret : amqp_rpc_reply_t) : Result Unit :=
  self.sendUnbindCommand queue_name exchange_name routing_key ret

/-- What a call of `basicConsume` leaves behind: the channel afterwards and the
run of the frame loop. -/
structure Consumed where
  channel : Channel
  run : Run

/-- The member `Channel::sendBasicConsumeCommand` (lines 143-221).  `ret` is the
reply to `basic.consume`, `frames` the results the successive calls of
`amqp_simple_wait_frame` give. -/
def Channel.sendBasicConsumeCommand (self : Channel) (queue : Queue)
    (args : FlagSet ConsumerArg) (ret : amqp_rpc_reply_t) (frames : List WaitResult) :
    Consumed :=
  let self1 := { self with
    conn_ := self.conn_.send (.basic_consume self.number_
      (amqp_cstring_bytes queue.getName) (amqp_cstring_bytes queue.getConsumerTag)
      (if args.test .CONSUMER_NO_LOCAL then 1 else 0)
      (if args.test .CONSUMER_NO_ACK then 1 else 0)
      (if args.test .CONSUMER_EXCLUSIVE then 1 else 0)) }
  if ret.reply_type ≠ AMQP_RESPONSE_NORMAL then
    ⟨self1, Run.stop (.raised ⟨"Unable to send consume command", some ret⟩)⟩
  else
    ⟨self1, consumeLoop frames⟩

/-- The overload `Channel::basicConsume(queue, args)` (lines 137-140). -/
def Channel.basicConsumeArgs (self : Channel) (queue : Queue) (args : FlagSet ConsumerArg)
    (ret : amqp_rpc_reply_t) (frames : List WaitResult) : Consumed :=
  self.sendBasicConsumeCommand queue args ret frames

/-- The overload `Channel::basicConsume(queue)` (lines 130-134). -/
def Channel.basicConsume (self : Channel) (queue : Queue)
    (ret : amqp_rpc_reply_t) (frames : List WaitResult) : Consumed :=
  let args : FlagSet ConsumerArg := ⟨[]⟩
  self.basicConsumeArgs queue args ret frames

/-- The member `Channel::sendDeleteQueue` (lines 236-250). -/
def Channel.sendDeleteQueue (self : Channel) (queue_name : String) (args : FlagSet DeleteArg)
    (ret : amqp_rpc_reply_t) : Result Unit :=
  let self1 := { self with
    conn_ := self.conn_.send (.queue_delete self.number_ (amqp_cstring_bytes queue_name)
      (if args.test .QUEUE_IF_UNUSED then 1 else 0)
      (if args.test .QUEUE_IF_EMPTY then 1 else 0)) }
  if ret.reply_type ≠ AMQP_RESPONSE_NORMAL then
    ⟨.error ⟨"Error deleting queue.", some ret⟩, self1⟩
  else
    ⟨.ok (), self1⟩

/-- The overload `Channel::deleteQueue(queue, args)` (lines 230-233). -/
def Channel.deleteQueueArgs (self : Channel) (queue : Queue) (args : FlagSet DeleteArg)
    (ret : amqp_rpc_reply_t) : Result Unit :=
  self.sendDeleteQueue queue.getName args ret

/-- The overload `Channel::deleteQueue(queue)` (lines 224-228). -/
def Channel.deleteQueue (self : Channel) (queue : Queue) (ret : amqp_rpc_reply_t) :
    Result Unit :=
  let args : FlagSet DeleteArg := ⟨[]⟩
  self.deleteQueueArgs queue args ret

/-! ## Frame streams used in the statements -/

/-- A wait that succeeded with a frame the top of the loop discards: a frame
that is not a method frame, or a method frame other than `basic.deliver`. -/
def WaitResult.isNoise (w : WaitResult) : Bool :=
  !decide (w.result < 0) &&
    (decide (w.frame.frame_type ≠ AMQP_FRAME_METHOD) ||
      decide (w.frame.method_id ≠ AMQP_BASIC_DELIVER_METHOD))

/-- The body frames carrying the given fragments, each received successfully. -/
def bodyFrames (fragments : List (List Byte)) : List WaitResult :=
  fragments.map (fun f => WaitResult.received (.body f))

/-- The frames of one delivery: `basic.deliver`, a header announcing `N` bytes,
and one body frame per fragment. -/
def deliverySequence (N : Nat) (fragments : List (List Byte)) : List WaitResult :=
  WaitResult.received (.method AMQP_BASIC_DELIVER_METHOD) ::
    WaitResult.received (.header N) :: bodyFrames fragments

/-- The number of bytes in a list of fragments. -/
def totalLength (fragments : List (List Byte)) : Nat :=
  (fragments.map List.length).sum

/-- A complete delivery: the header announces exactly the bytes that follow. -/
def completeDelivery (fragments : List (List Byte)) : List WaitResult :=
  deliverySequence (totalLength fragments) fragments

/-- A stream of complete deliveries, each preceded by the given frames. -/
def interleaved : List (List WaitResult × List (List Byte)) → List WaitResult
  | [] => []
  | (noise, fragments) :: rest => noise ++ completeDelivery fragments ++ interleaved rest

/-- The same stream of complete deliveries with nothing in between. -/
def deliveriesOnly : List (List WaitResult × List (List Byte)) → List WaitResult
  | [] => []
  | (_, fragments) :: rest => completeDelivery fragments ++ deliveriesOnly rest

/-- What the wait of stage `s` leads to when the loop blocked there is handed
the results `rest`, as far as it does not depend on the bytes gathered so far:
at the method stage the loop starts over on `rest`; at the header and body
stages a failed wait or a frame of the wrong type ends the call. -/
def resume (s : Stage) (rest : List WaitResult) : Option Run :=
  match s, rest with
  | .method, rest => some (consumeLoop rest)
  | .header, h :: _ =>
    if h.result < 0 then some (Run.stop (.raised ⟨"Message frame is invalid!", none⟩))
    else if h.frame.frame_type ≠ AMQP_FRAME_HEADER then
      some (Run.stop (.raised ⟨"Expected header!", none⟩))
    else none
  | .body, e :: _ =>
    if e.result < 0 then some (Run.stop .returned)
    else if e.frame.frame_type ≠ AMQP_FRAME_BODY then
      some (Run.stop (.raised ⟨"Expected body frame!", none⟩))
    else none
  | _, [] => none

/-- A wait that succeeded with a `basic.deliver` method frame. -/
def WaitResult.isDeliver (w : WaitResult) : Bool :=
  !decide (w.result < 0) && decide (w.frame.frame_type = AMQP_FRAME_METHOD) &&
    decide (w.frame.method_id = AMQP_BASIC_DELIVER_METHOD)

/-- The loop, blocked at stage `s` after the results `pre`, goes on as `resume`
says when more results arrive. -/
def ConsumeResumes (pre : List WaitResult) : Prop :=
  ∀ (s : Stage) (rest : List WaitResult) (k : Run),
    (consumeLoop pre).outcome = .waiting s → resume s rest = some k →
    (consumeLoop (pre ++ rest)).notified = (consumeLoop pre).notified ++ k.notified ∧
      (consumeLoop (pre ++ rest)).outcome = k.outcome

/-- The same for a run that starts inside the body loop. -/
def BodyResumes (pre : List WaitResult) : Prop :=
  ∀ (N r : Nat) (buf : List Byte) (s : Stage) (rest : List WaitResult) (k : Run),
    (bodyLoop N r buf pre).outcome = .waiting s → resume s rest = some k →
    (bodyLoop N r buf (pre ++ rest)).notified = (bodyLoop N r buf pre).notified ++ k.notified ∧
      (bodyLoop N r buf (pre ++ rest)).outcome = k.outcome

/-! ## Lemmas on runs -/

@[simp] theorem Run.stop_notified (o : Outcome) : (Run.stop o).notified = [] := rfl
@[simp] theorem Run.stop_outcome (o : Outcome) : (Run.stop o).outcome = o := rfl
@[simp] theorem Run.stop_waits (o : Outcome) : (Run.stop o).waits = 0 := rfl
@[simp] theorem Run.stop_copies (o : Outcome) : (Run.stop o).copies = [] := rfl
@[simp] theorem Run.afterWait_notified (r : Run) : r.afterWait.notified = r.notified := rfl
@[simp] theorem Run.afterWait_outcome (r : Run) : r.afterWait.outcome = r.outcome := rfl
@[simp] theorem Run.afterWait_copies (r : Run) : r.afterWait.copies = r.copies := rfl
@[simp] theorem Run.afterWait_waits (r : Run) : r.afterWait.waits = r.waits + 1 := rfl
@[simp] theorem Run.afterCopy_notified (c : Copy) (r : Run) :
    (r.afterCopy c).notified = r.notified := rfl
@[simp] theorem Run.afterCopy_outcome (c : Copy) (r : Run) :
    (r.afterCopy c).outcome = r.outcome := rfl
@[simp] theorem Run.afterCopy_copies (c : Copy) (r : Run) :
    (r.afterCopy c).copies = c :: r.copies := rfl
@[simp] theorem Run.afterNotify_notified (m : Message) (r : Run) :
    (r.afterNotify m).notified = m :: r.notified := rfl
@[simp] theorem Run.afterNotify_outcome (m : Message) (r : Run) :
    (r.afterNotify m).outcome = r.outcome := rfl
@[simp] theorem Run.afterNotify_copies (m : Message) (r : Run) :
    (r.afterNotify m).copies = r.copies := rfl

theorem consumeLoop_nil : consumeLoop [] = (Run.stop (.waiting .method)).afterWait := by
  rw [consumeLoop]

theorem consumeLoop_noise (w : WaitResult) (ws : List WaitResult) (hw : w.isNoise = true) :
    consumeLoop (w :: ws) = (consumeLoop ws).afterWait := by
  simp only [WaitResult.isNoise, Bool.and_eq_true, Bool.not_eq_true', decide_eq_false_iff_not,
    Bool.or_eq_true, decide_eq_true_eq] at hw
  rw [consumeLoop.eq_def]
  simp only []
  rw [if_neg hw.1]
  by_cases h1 : w.frame.frame_type ≠ AMQP_FRAME_METHOD
  · rw [if_pos h1]
  · rw [if_neg h1]
    have h2 : w.frame.method_id ≠ AMQP_BASIC_DELIVER_METHOD := by
      rcases hw.2 with h | h
      · exact absurd h h1
      · exact h
    rw [if_pos h2]

theorem consumeLoop_noise_append (noise rest : List WaitResult)
    (hn : ∀ w ∈ noise, w.isNoise = true) :
    (consumeLoop (noise ++ rest)).notified = (consumeLoop rest).notified ∧
      (consumeLoop (noise ++ rest)).outcome = (consumeLoop rest).outcome := by
  induction noise with
  | nil => simp
  | cons w ws ih =>
    have hw : w.isNoise = true := hn w (List.mem_cons_self w ws)
    have hws : ∀ x ∈ ws, x.isNoise = true := fun x hx => hn x (List.mem_cons_of_mem w hx)
    rw [List.cons_append, consumeLoop_noise w _ hw]
    simpa using ih hws

theorem bodyLoop_done (N r : Nat) (buf : List Byte) (ws : List WaitResult) (h : ¬ r < N) :
    bodyLoop N r buf ws = (consumeLoop ws).afterNotify (Message.ofBytes buf buf.length) := by
  rw [bodyLoop.eq_def, if_neg h]

theorem bodyLoop_body (N r : Nat) (buf f : List Byte) (ws : List WaitResult) (h : r < N) :
    bodyLoop N r buf (WaitResult.received (.body f) :: ws) =
      ((bodyLoop N ((r + f.length) % SIZE_T_RANGE) (memcpy buf r f) ws).afterCopy
        ⟨r, f.length, buf.length⟩).afterWait := by
  rw [bodyLoop.eq_def, if_pos h]
  simp [WaitResult.received, amqp_frame_t.frame_type, amqp_frame_t.body_fragment]

theorem consumeLoop_delivery (N : Nat) (ws : List WaitResult) :
    consumeLoop (WaitResult.received (.method AMQP_BASIC_DELIVER_METHOD) ::
        WaitResult.received (.header N) :: ws) =
      (bodyLoop (N % SIZE_T_RANGE) 0 (amqp_bytes_malloc (N % SIZE_T_RANGE))
        ws).afterWait.afterWait := by
  rw [consumeLoop.eq_def]
  simp [WaitResult.received, amqp_frame_t.frame_type, amqp_frame_t.method_id,
    amqp_frame_t.body_size]

theorem memcpy_length (buf : List Byte) (r : Nat) (f : List Byte) :
    (memcpy buf r f).length = buf.length := by
  simp only [memcpy, List.length_take, List.length_append, List.length_drop]
  omega

theorem memcpy_take (buf : List Byte) (r : Nat) (f : List Byte) (h : r + f.length ≤ buf.length) :
    (memcpy buf r f).take (r + f.length) = buf.take r ++ f := by
  have hr : (buf.take r).length = r := by simp; omega
  have hlen : (buf.take r ++ f).length = r + f.length := by simp [hr]
  unfold memcpy
  rw [List.take_take, Nat.min_eq_left h, ← hlen, List.take_left]

theorem bodyFrames_noise (fs : List (List Byte)) :
    ∀ w ∈ bodyFrames fs, w.isNoise = true := by
  intro w hw
  simp only [bodyFrames, List.mem_map] at hw
  obtain ⟨f, _, rfl⟩ := hw
  simp [WaitResult.isNoise, WaitResult.received, amqp_frame_t.frame_type, AMQP_FRAME_BODY,
    AMQP_FRAME_METHOD]

theorem totalLength_cons (f : List Byte) (fs : List (List Byte)) :
    totalLength (f :: fs) = f.length + totalLength fs := by
  simp [totalLength]

theorem flatten_of_totalLength_zero (fs : List (List Byte)) (h : totalLength fs = 0) :
    fs.flatten = [] := by
  induction fs with
  | nil => rfl
  | cons f fs ih =>
    rw [totalLength_cons] at h
    have hf : f = [] := List.length_eq_zero.mp (by omega)
    rw [List.flatten_cons, hf, ih (by omega)]
    rfl

/-- Once the header has announced `N` bytes, body frames whose fragments make up
the missing bytes complete the message: it is notified, and the loop goes on
with the frames that follow. -/
theorem bodyLoop_complete (N : Nat) (hN : N < SIZE_T_RANGE) (rest : List WaitResult) :
    ∀ (fs : List (List Byte)) (r : Nat) (buf : List Byte), buf.length = N →
      r + totalLength fs = N →
      (bodyLoop N r buf (bodyFrames fs ++ rest)).notified =
          ⟨buf.take r ++ fs.flatten, N⟩ :: (consumeLoop rest).notified ∧
        (bodyLoop N r buf (bodyFrames fs ++ rest)).outcome = (consumeLoop rest).outcome := by
  intro fs
  induction fs with
  | nil =>
    intro r buf hbuf hr
    have hrN : r = N := by simpa [totalLength] using hr
    subst hrN
    rw [bodyLoop_done _ _ _ _ (Nat.lt_irrefl _)]
    simp [bodyFrames, Message.ofBytes, hbuf]
  | cons f fs ih =>
    intro r buf hbuf hr
    rw [totalLength_cons] at hr
    by_cases hlt : r < N
    · have hstep : (r + f.length) % SIZE_T_RANGE = r + f.length :=
        Nat.mod_eq_of_lt (by omega)
      have hfit : r + f.length ≤ buf.length := by omega
      have hb : bodyFrames (f :: fs) ++ rest =
          WaitResult.received (.body f) :: (bodyFrames fs ++ rest) := rfl
      rw [hb, bodyLoop_body _ _ _ _ _ hlt, hstep]
      have h := ih (r + f.length) (memcpy buf r f)
        (by rw [memcpy_length]; exact hbuf) (by omega)
      rw [memcpy_take buf r f hfit] at h
      simpa [List.append_assoc] using h
    · have hz : totalLength (f :: fs) = 0 := by rw [totalLength_cons]; omega
      have hrN : r = N := by omega
      rw [bodyLoop_done _ _ _ _ hlt, flatten_of_totalLength_zero _ hz]
      have hskip := consumeLoop_noise_append (bodyFrames (f :: fs)) rest
        (bodyFrames_noise (f :: fs))
      have htake : List.take N buf = buf := List.take_of_length_le (by omega)
      simp [Message.ofBytes, hbuf, hrN, hskip.1, hskip.2, htake]

theorem consumeLoop_fail (w : WaitResult) (ws : List WaitResult) (hw : w.result < 0) :
    consumeLoop (w :: ws) = (Run.stop (.raised ⟨"Error in header frame", none⟩)).afterWait := by
  rw [consumeLoop.eq_def]
  simp only []
  rw [if_pos hw]

theorem isDeliver_iff (w : WaitResult) :
    w.isDeliver = true ↔ ¬ w.result < 0 ∧ w.frame.frame_type = AMQP_FRAME_METHOD ∧
      w.frame.method_id = AMQP_BASIC_DELIVER_METHOD := by
  simp [WaitResult.isDeliver, and_assoc]

theorem consumeLoop_deliver_nil (w : WaitResult) (hw : w.isDeliver = true) :
    consumeLoop [w] = (Run.stop (.waiting .header)).afterWait.afterWait := by
  obtain ⟨h0, h1, h2⟩ := (isDeliver_iff w).mp hw
  rw [consumeLoop.eq_def]
  simp only []
  rw [if_neg h0, if_neg (by simpa using h1), if_neg (by simpa using h2)]

theorem consumeLoop_deliver_cons (w h : WaitResult) (ws : List WaitResult)
    (hw : w.isDeliver = true) :
    consumeLoop (w :: h :: ws) =
      if h.result < 0 then
        (Run.stop (.raised ⟨"Message frame is invalid!", none⟩)).afterWait.afterWait
      else if h.frame.frame_type ≠ AMQP_FRAME_HEADER then
        (Run.stop (.raised ⟨"Expected header!", none⟩)).afterWait.afterWait
      else
        (bodyLoop (h.frame.body_size % SIZE_T_RANGE) 0
          (amqp_bytes_malloc (h.frame.body_size % SIZE_T_RANGE)) ws).afterWait.afterWait := by
  obtain ⟨h0, h1, h2⟩ := (isDeliver_iff w).mp hw
  rw [consumeLoop.eq_def]
  simp only []
  rw [if_neg h0, if_neg (by simpa using h1), if_neg (by simpa using h2)]

theorem fail_or_noise_or_deliver (w : WaitResult) :
    w.result < 0 ∨ w.isNoise = true ∨ w.isDeliver = true := by
  by_cases h0 : w.result < 0
  · exact Or.inl h0
  · by_cases h1 : w.frame.frame_type = AMQP_FRAME_METHOD
    · by_cases h2 : w.frame.method_id = AMQP_BASIC_DELIVER_METHOD
      · exact Or.inr (Or.inr ((isDeliver_iff w).mpr ⟨h0, h1, h2⟩))
      · exact Or.inr (Or.inl (by simp [WaitResult.isNoise, h0, h2]))
    · exact Or.inr (Or.inl (by simp [WaitResult.isNoise, h0, h1]))

theorem bodyLoop_nil (N r : Nat) (buf : List Byte) (h : r < N) :
    bodyLoop N r buf [] = (Run.stop (.waiting .body)).afterWait := by
  rw [bodyLoop.eq_def, if_pos h]

theorem bodyLoop_cons (N r : Nat) (buf : List Byte) (w : WaitResult) (ws : List WaitResult)
    (h : r < N) :
    bodyLoop N r buf (w :: ws) =
      if w.result < 0 then (Run.stop .returned).afterWait
      else if w.frame.frame_type ≠ AMQP_FRAME_BODY then
        (Run.stop (.raised ⟨"Expected body frame!", none⟩)).afterWait
      else
        ((bodyLoop N ((r + w.frame.body_fragment.length) % SIZE_T_RANGE)
            (memcpy buf r w.frame.body_fragment) ws).afterCopy
          ⟨r, w.frame.body_fragment.length, buf.length⟩).afterWait := by
  rw [bodyLoop.eq_def, if_pos h]

theorem consumeResumes_step (pre : List WaitResult)
    (ih : ∀ ws : List WaitResult, ws.length < pre.length → ConsumeResumes ws ∧ BodyResumes ws) :
    ConsumeResumes pre := by
  intro s rest k hs hk
  cases pre with
  | nil =>
    rw [consumeLoop_nil] at hs
    simp only [Run.afterWait_outcome, Run.stop_outcome, Outcome.waiting.injEq] at hs
    subst hs
    simp only [resume, Option.some.injEq] at hk
    subst hk
    simp [consumeLoop_nil]
  | cons w ws =>
    rcases fail_or_noise_or_deliver w with hf | hn | hd
    · rw [consumeLoop_fail w ws hf] at hs
      simp at hs
    · rw [consumeLoop_noise w ws hn] at hs
      rw [List.cons_append, consumeLoop_noise w _ hn, consumeLoop_noise w ws hn]
      simp only [Run.afterWait_notified, Run.afterWait_outcome] at hs ⊢
      exact (ih ws (by simp)).1 s rest k hs hk
    · cases ws with
      | nil =>
        rw [consumeLoop_deliver_nil w hd] at hs ⊢
        simp only [Run.afterWait_outcome, Run.stop_outcome, Outcome.waiting.injEq] at hs
        subst hs
        cases rest with
        | nil => simp [resume] at hk
        | cons e rest1 =>
          simp only [resume] at hk
          rw [List.singleton_append, consumeLoop_deliver_cons w e rest1 hd]
          by_cases h0 : e.result < 0
          · rw [if_pos h0] at hk ⊢
            cases hk
            simp
          · rw [if_neg h0] at hk ⊢
            by_cases h1 : e.frame.frame_type ≠ AMQP_FRAME_HEADER
            · rw [if_pos h1] at hk ⊢
              cases hk
              simp
            · rw [if_neg h1] at hk
              cases hk
      | cons h ws2 =>
        rw [consumeLoop_deliver_cons w h ws2 hd] at hs
        rw [List.cons_append, List.cons_append, consumeLoop_deliver_cons w h _ hd,
          consumeLoop_deliver_cons w h ws2 hd]
        by_cases h0 : h.result < 0
        · rw [if_pos h0] at hs
          simp at hs
        · rw [if_neg h0] at hs
          by_cases h1 : h.frame.frame_type ≠ AMQP_FRAME_HEADER
          · rw [if_pos h1] at hs
            simp at hs
          · rw [if_neg h1] at hs
            simp only [if_neg h0, if_neg h1, Run.afterWait_notified,
              Run.afterWait_outcome] at hs ⊢
            exact (ih ws2 (by simp; omega)).2 _ _ _ s rest k hs hk

theorem bodyResumes_step (pre : List WaitResult) (hc : ConsumeResumes pre)
    (ih : ∀ ws : List WaitResult, ws.length < pre.length → BodyResumes ws) :
    BodyResumes pre := by
  intro N r buf s rest k hs hk
  by_cases hlt : r < N
  · cases pre with
    | nil =>
      rw [bodyLoop_nil N r buf hlt] at hs ⊢
      simp only [Run.afterWait_outcome, Run.stop_outcome, Outcome.waiting.injEq] at hs
      subst hs
      cases rest with
      | nil => simp [resume] at hk
      | cons e rest1 =>
        simp only [resume] at hk
        rw [List.nil_append, bodyLoop_cons N r buf e rest1 hlt]
        by_cases h0 : e.result < 0
        · rw [if_pos h0] at hk ⊢
          cases hk
          simp
        · rw [if_neg h0] at hk ⊢
          by_cases h1 : e.frame.frame_type ≠ AMQP_FRAME_BODY
          · rw [if_pos h1] at hk ⊢
            cases hk
            simp
          · rw [if_neg h1] at hk
            cases hk
    | cons w ws =>
      rw [bodyLoop_cons N r buf w ws hlt] at hs
      rw [List.cons_append, bodyLoop_cons N r buf w _ hlt, bodyLoop_cons N r buf w ws hlt]
      by_cases h0 : w.result < 0
      · rw [if_pos h0] at hs
        simp at hs
      · rw [if_neg h0] at hs
        by_cases h1 : w.frame.frame_type ≠ AMQP_FRAME_BODY
        · rw [if_pos h1] at hs
          simp at hs
        · rw [if_neg h1] at hs
          simp only [if_neg h0, if_neg h1, Run.afterWait_notified, Run.afterWait_outcome,
            Run.afterCopy_notified, Run.afterCopy_outcome] at hs ⊢
          exact ih ws (by simp) _ _ _ s rest k hs hk
  · rw [bodyLoop_done N r buf pre hlt] at hs ⊢
    rw [bodyLoop_done N r buf _ hlt]
    simp only [Run.afterNotify_notified, Run.afterNotify_outcome, List.cons_append] at hs ⊢
    have h := hc s rest k hs hk
    exact ⟨by rw [h.1], h.2⟩

theorem resumes_all (n : Nat) :
    ∀ pre : List WaitResult, pre.length = n → ConsumeResumes pre ∧ BodyResumes pre := by
  induction n using Nat.strong_induction_on with
  | _ n ih =>
    intro pre hlen
    have hshort : ∀ ws : List WaitResult, ws.length < pre.length →
        ConsumeResumes ws ∧ BodyResumes ws :=
      fun ws hws => ih ws.length (by omega) ws rfl
    have hc : ConsumeResumes pre := consumeResumes_step pre hshort
    exact ⟨hc, bodyResumes_step pre hc (fun ws hws => (hshort ws hws).2)⟩

theorem consumeLoop_resumes (pre : List WaitResult) : ConsumeResumes pre :=
  (resumes_all pre.length pre rfl).1

theorem basicConsumeArgs_run (self : Channel) (queue : Queue) (args : FlagSet ConsumerArg)
    (ret : amqp_rpc_reply_t) (frames : List WaitResult)
    (hret : ret.reply_type = AMQP_RESPONSE_NORMAL) :
    (self.basicConsumeArgs queue args ret frames).run = consumeLoop frames := by
  simp [Channel.basicConsumeArgs, Channel.sendBasicConsumeCommand, hret]

theorem consumeLoop_completeDelivery (fs : List (List Byte)) (rest : List WaitResult)
    (hN : totalLength fs < SIZE_T_RANGE) :
    (consumeLoop (completeDelivery fs ++ rest)).notified =
        ⟨fs.flatten, totalLength fs⟩ :: (consumeLoop rest).notified ∧
      (consumeLoop (completeDelivery fs ++ rest)).outcome = (consumeLoop rest).outcome := by
  have hb := bodyLoop_complete (totalLength fs) hN rest fs 0
    (amqp_bytes_malloc (totalLength fs)) (by simp [amqp_bytes_malloc]) (by simp)
  have hseq : completeDelivery fs ++ rest =
      WaitResult.received (.method AMQP_BASIC_DELIVER_METHOD) ::
        WaitResult.received (.header (totalLength fs)) :: (bodyFrames fs ++ rest) := rfl
  rw [hseq, consumeLoop_delivery, Nat.mod_eq_of_lt hN]
  simpa using hb

theorem consumeLoop_interleaved (tail : List WaitResult) :
    ∀ xs : List (List WaitResult × List (List Byte)),
      (∀ x ∈ xs, ∀ w ∈ x.1, w.isNoise = true) →
      (∀ x ∈ xs, totalLength x.2 < SIZE_T_RANGE) →
      (consumeLoop (interleaved xs ++ tail)).notified =
          xs.map (fun x => (⟨x.2.flatten, totalLength x.2⟩ : Message)) ++
            (consumeLoop tail).notified ∧
        (consumeLoop (interleaved xs ++ tail)).outcome = (consumeLoop tail).outcome := by
  intro xs
  induction xs with
  | nil => intro _ _; simp [interleaved]
  | cons x xs ih =>
    intro hnoise hsize
    obtain ⟨noise, fs⟩ := x
    have hn : ∀ w ∈ noise, w.isNoise = true := hnoise (noise, fs) (List.mem_cons_self _ _)
    have hfs : totalLength fs < SIZE_T_RANGE := hsize (noise, fs) (List.mem_cons_self _ _)
    have ih1 := ih (fun y hy => hnoise y (List.mem_cons_of_mem _ hy))
      (fun y hy => hsize y (List.mem_cons_of_mem _ hy))
    have hshape : interleaved ((noise, fs) :: xs) ++ tail =
        noise ++ (completeDelivery fs ++ (interleaved xs ++ tail)) := by
      simp [interleaved, List.append_assoc]
    have h1 := consumeLoop_noise_append noise (completeDelivery fs ++ (interleaved xs ++ tail)) hn
    have h2 := consumeLoop_completeDelivery fs (interleaved xs ++ tail) hfs
    rw [hshape, h1.1, h1.2, h2.1, h2.2, ih1.1, ih1.2]
    simp

theorem deliveriesOnly_eq (xs : List (List WaitResult × List (List Byte))) :
    deliveriesOnly xs = interleaved (xs.map (fun x => (([] : List WaitResult), x.2))) := by
  induction xs with
  | nil => rfl
  | cons x xs ih =>
    obtain ⟨noise, fs⟩ := x
    simp [deliveriesOnly, interleaved, ih]

theorem consumeLoop_deliveriesOnly (tail : List WaitResult)
    (xs : List (List WaitResult × List (List Byte)))
    (hsize : ∀ x ∈ xs, totalLength x.2 < SIZE_T_RANGE) :
    (consumeLoop (deliveriesOnly xs ++ tail)).notified =
        xs.map (fun x => (⟨x.2.flatten, totalLength x.2⟩ : Message)) ++
          (consumeLoop tail).notified ∧
      (consumeLoop (deliveriesOnly xs ++ tail)).outcome = (consumeLoop tail).outcome := by
  have h := consumeLoop_interleaved tail (xs.map (fun x => (([] : List WaitResult), x.2)))
    (by
      intro x hx w hw
      simp only [List.mem_map] at hx
      obtain ⟨y, _, rfl⟩ := hx
      simp at hw)
    (by
      intro x hx
      simp only [List.mem_map] at hx
      obtain ⟨y, hy, rfl⟩ := hx
      exact hsize y hy)
  rw [deliveriesOnly_eq]
  simpa [List.map_map, Function.comp_def] using h

/-! ## The consume loop: claims -/

/-- C1: after a NORMAL consume reply, the frames `basic.deliver`, a header
announcing `N` bytes and body frames whose fragment lengths sum to `N` make the
loop call `notify` exactly once, with the message of length `N` whose bytes are
the fragments in order; the call then waits for the next method frame. -/
theorem basicConsume_reassembles (self : Channel) (queue : Queue) (args : FlagSet ConsumerArg)
    (ret : amqp_rpc_reply_t) (N : Nat) (fragments : List (List Byte))
    (hret : ret.reply_type = AMQP_RESPONSE_NORMAL) (hN : N < SIZE_T_RANGE)
    (hsum : totalLength fragments = N) :
    (self.basicConsumeArgs queue args ret (deliverySequence N fragments)).run.notified =
        [(⟨fragments.flatten, N⟩ : Message)] ∧
      (fragments.flatten).length = N ∧
      (self.basicConsumeArgs queue args ret (deliverySequence N fragments)).run.outcome =
        .waiting .method := by
  subst hsum
  have h := consumeLoop_completeDelivery fragments [] hN
  rw [List.append_nil, consumeLoop_nil] at h
  rw [basicConsumeArgs_run _ _ _ _ _ hret]
  refine ⟨by simpa using h.1, ?_, by simpa using h.2⟩
  simp [totalLength, List.length_flatten]

/-- C1, at the body `1 2 3` split as `1 2` and `3`. -/
theorem basicConsume_reassembles_witness :
    ((⟨⟨[]⟩, 1⟩ : Channel).basicConsumeArgs ⟨"q", ""⟩ ⟨[]⟩ ⟨AMQP_RESPONSE_NORMAL, 0, 0⟩
        (deliverySequence 3 [[1, 2], [3]])).run.notified = [(⟨[1, 2, 3], 3⟩ : Message)] := by
  have h := basicConsume_reassembles ⟨⟨[]⟩, 1⟩ ⟨"q", ""⟩ ⟨[]⟩ ⟨AMQP_RESPONSE_NORMAL, 0, 0⟩ 3
    [[1, 2], [3]] rfl (by decide) (by decide)
  simpa using h.1

/-- C2: in a stream of complete deliveries, frames that are not method frames and
method frames other than `basic.deliver`, put before each delivery, change
neither the messages passed to `notify` nor the way the call ends. -/
theorem basicConsume_skips_noise (self : Channel) (queue : Queue) (args : FlagSet ConsumerArg)
    (ret : amqp_rpc_reply_t) (xs : List (List WaitResult × List (List Byte)))
    (tail : List WaitResult)
    (hret : ret.reply_type = AMQP_RESPONSE_NORMAL)
    (hnoise : ∀ x ∈ xs, ∀ w ∈ x.1, w.isNoise = true)
    (hsize : ∀ x ∈ xs, totalLength x.2 < SIZE_T_RANGE) :
    (self.basicConsumeArgs queue args ret (interleaved xs ++ tail)).run.notified =
        (self.basicConsumeArgs queue args ret (deliveriesOnly xs ++ tail)).run.notified ∧
      (self.basicConsumeArgs queue args ret (interleaved xs ++ tail)).run.outcome =
        (self.basicConsumeArgs queue args ret (deliveriesOnly xs ++ tail)).run.outcome := by
  have h1 := consumeLoop_interleaved tail xs hnoise hsize
  have h2 := consumeLoop_deliveriesOnly tail xs hsize
  rw [basicConsumeArgs_run _ _ _ _ _ hret, basicConsumeArgs_run _ _ _ _ _ hret]
  exact ⟨by rw [h1.1, h2.1], by rw [h1.2, h2.2]⟩

/-- C2, at two deliveries with a heartbeat and a foreign method frame before the
first and a stray body frame before the second. -/
theorem basicConsume_skips_noise_witness :
    ((⟨⟨[]⟩, 1⟩ : Channel).basicConsumeArgs ⟨"q", ""⟩ ⟨[]⟩ ⟨AMQP_RESPONSE_NORMAL, 0, 0⟩
        (interleaved [([.received .heartbeat, .received (.method 10)], [[1], [2]]),
          ([.received (.body [9])], [[3]])] ++ [])).run.notified =
      ((⟨⟨[]⟩, 1⟩ : Channel).basicConsumeArgs ⟨"q", ""⟩ ⟨[]⟩ ⟨AMQP_RESPONSE_NORMAL, 0, 0⟩
        (deliveriesOnly [([.received .heartbeat, .received (.method 10)], [[1], [2]]),
          ([.received (.body [9])], [[3]])] ++ [])).run.notified :=
  (basicConsume_skips_noise ⟨⟨[]⟩, 1⟩ ⟨"q", ""⟩ ⟨[]⟩ ⟨AMQP_RESPONSE_NORMAL, 0, 0⟩
    [([.received .heartbeat, .received (.method 10)], [[1], [2]]),
      ([.received (.body [9])], [[3]])] [] rfl (by decide) (by decide)).1

/-- C4: when the loop reads a `basic.deliver` method frame and the next wait
succeeds with a frame that is not a header, `basicConsume` raises
"Expected header!" and notifies nothing for that delivery. -/
theorem basicConsume_expected_header (self : Channel) (queue : Queue)
    (args : FlagSet ConsumerArg) (ret : amqp_rpc_reply_t) (pre : List WaitResult)
    (d w : WaitResult) (rest : List WaitResult)
    (hret : ret.reply_type = AMQP_RESPONSE_NORMAL)
    (hpre : (self.basicConsumeArgs queue args ret pre).run.outcome = .waiting .method)
    (hd0 : ¬ d.result < 0) (hd : d.frame = .method AMQP_BASIC_DELIVER_METHOD)
    (hw0 : ¬ w.result < 0) (hw : w.frame.frame_type ≠ AMQP_FRAME_HEADER) :
    (self.basicConsumeArgs queue args ret (pre ++ d :: w :: rest)).run.outcome =
        .raised ⟨"Expected header!", none⟩ ∧
      (self.basicConsumeArgs queue args ret (pre ++ d :: w :: rest)).run.notified =
        (self.basicConsumeArgs queue args ret pre).run.notified := by
  rw [basicConsumeArgs_run _ _ _ _ _ hret] at hpre ⊢
  rw [basicConsumeArgs_run _ _ _ _ _ hret]
  have hdel : d.isDeliver = true :=
    (isDeliver_iff d).mpr ⟨hd0, by rw [hd]; rfl, by rw [hd]; rfl⟩
  have h := consumeLoop_resumes pre .method (d :: w :: rest) _ hpre rfl
  rw [consumeLoop_deliver_cons d w rest hdel, if_neg hw0, if_pos hw] at h
  exact ⟨by simpa using h.2, by simpa using h.1⟩

/-- C4, at a delivery whose method frame is followed by a body frame. -/
theorem basicConsume_expected_header_witness :
    ((⟨⟨[]⟩, 1⟩ : Channel).basicConsumeArgs ⟨"q", ""⟩ ⟨[]⟩ ⟨AMQP_RESPONSE_NORMAL, 0, 0⟩
        ([.received .heartbeat] ++ .received (.method AMQP_BASIC_DELIVER_METHOD) ::
          .received (.body [7]) :: [])).run.outcome = .raised ⟨"Expected header!", none⟩ :=
  (basicConsume_expected_header ⟨⟨[]⟩, 1⟩ ⟨"q", ""⟩ ⟨[]⟩ ⟨AMQP_RESPONSE_NORMAL, 0, 0⟩
    [.received .heartbeat] (.received (.method AMQP_BASIC_DELIVER_METHOD))
    (.received (.body [7])) [] rfl
    (by simp [Channel.basicConsumeArgs, Channel.sendBasicConsumeCommand, consumeLoop_nil,
      consumeLoop_noise, WaitResult.isNoise, WaitResult.received, amqp_frame_t.frame_type,
      AMQP_FRAME_HEARTBEAT, AMQP_FRAME_METHOD])
    (by decide) rfl (by decide) (by decide)).1

/-! ## Commands: claims -/

theorem declareQueue_eq (self : Channel) (name : String) (r : amqp_queue_declare_ok_t)
    (ret : amqp_rpc_reply_t) :
    self.declareQueue name r ret = self.declareQueueArgs name ⟨[]⟩ r ret := rfl

theorem basicConsume_eq (self : Channel) (queue : Queue) (ret : amqp_rpc_reply_t)
    (frames : List WaitResult) :
    self.basicConsume queue ret frames = self.basicConsumeArgs queue ⟨[]⟩ ret frames := rfl

theorem deleteQueue_eq (self : Channel) (queue : Queue) (ret : amqp_rpc_reply_t) :
    self.deleteQueue queue ret = self.deleteQueueArgs queue ⟨[]⟩ ret := rfl

/-- C5: when the reply to `queue.declare` (non-empty name), `queue.bind`,
`queue.unbind`, `queue.delete` or `basic.consume` is not NORMAL, the operation
throws an exception carrying that reply, the command has been sent exactly once,
and `basicConsume` waits for no frame and notifies nothing. -/
theorem command_fails_on_abnormal_reply (self : Channel) (ret : amqp_rpc_reply_t)
    (name : String) (dargs : FlagSet QueueArg) (r : amqp_queue_declare_ok_t)
    (queue_name exchange_name routing_key : String)
    (queue : Queue) (xargs : FlagSet DeleteArg) (cargs : FlagSet ConsumerArg)
    (frames : List WaitResult)
    (hret : ret.reply_type ≠ AMQP_RESPONSE_NORMAL) (hname : name.length ≠ 0) :
    ((self.declareQueueArgs name dargs r ret).value =
        .error ⟨"Error declaring queue.", some ret⟩ ∧
      (self.declareQueueArgs name dargs r ret).channel.conn_.sent = self.conn_.sent ++
        [.queue_declare self.number_ (amqp_cstring_bytes name)
          (if dargs.test .QUEUE_PASSIVE then 1 else 0)
          (if dargs.test .QUEUE_DURABLE then 1 else 0)
          (if dargs.test .QUEUE_EXCLUSIVE then 1 else 0)
          (if dargs.test .QUEUE_AUTO_DELETE then 1 else 0)]) ∧
    ((∃ msg, (self.bindQueue queue_name exchange_name routing_key ret).value =
        .error ⟨msg, some ret⟩) ∧
      (self.bindQueue queue_name exchange_name routing_key ret).channel.conn_.sent =
        self.conn_.sent ++ [.queue_bind self.number_ (amqp_cstring_bytes queue_name)
          (amqp_cstring_bytes exchange_name) (amqp_cstring_bytes routing_key)]) ∧
    ((∃ msg, (self.unbindQueue queue_name exchange_name routing_key ret).value =
        .error ⟨msg, some ret⟩) ∧
      (self.unbindQueue queue_name exchange_name routing_key ret).channel.conn_.sent =
        self.conn_.sent ++ [.queue_unbind self.number_ (amqp_cstring_bytes queue_name)
          (amqp_cstring_bytes exchange_name) (amqp_cstring_bytes routing_key)]) ∧
    ((self.deleteQueueArgs queue xargs ret).value =
        .error ⟨"Error deleting queue.", some ret⟩ ∧
      (self.deleteQueueArgs queue xargs ret).channel.conn_.sent = self.conn_.sent ++
        [.queue_delete self.number_ (amqp_cstring_bytes queue.name)
          (if xargs.test .QUEUE_IF_UNUSED then 1 else 0)
          (if xargs.test .QUEUE_IF_EMPTY then 1 else 0)]) ∧
    ((self.basicConsumeArgs queue cargs ret frames).run.outcome =
        .raised ⟨"Unable to send consume command", some ret⟩ ∧
      (self.basicConsumeArgs queue cargs ret frames).channel.conn_.sent = self.conn_.sent ++
        [.basic_consume self.number_ (amqp_cstring_bytes queue.name)
          (amqp_cstring_bytes queue.consumerTag)
          (if cargs.test .CONSUMER_NO_LOCAL then 1 else 0)
          (if cargs.test .CONSUMER_NO_ACK then 1 else 0)
          (if cargs.test .CONSUMER_EXCLUSIVE then 1 else 0)] ∧
      (self.basicConsumeArgs queue cargs ret frames).run.waits = 0 ∧
      (self.basicConsumeArgs queue cargs ret frames).run.notified = []) := by
  refine ⟨?_, ?_, ?_, ?_, ?_⟩
  · simp [Channel.declareQueueArgs, Channel.sendDeclareCommand, hname, hret, Connection.send]
  · simp [Channel.bindQueue, Channel.sendBindCommand, hret, Connection.send]
  · simp [Channel.unbindQueue, Channel.sendUnbindCommand, hret, Connection.send]
  · simp [Channel.deleteQueueArgs, Channel.sendDeleteQueue, hret, Connection.send,
      Queue.getName]
  · simp [Channel.basicConsumeArgs, Channel.sendBasicConsumeCommand, hret, Connection.send,
      Queue.getName, Queue.getConsumerTag]

/-- C5, at a server exception answering each command on channel 1. -/
theorem command_fails_on_abnormal_reply_witness :
    ((⟨⟨[]⟩, 1⟩ : Channel).declareQueueArgs "jobs" ⟨[]⟩ ⟨none⟩
        ⟨AMQP_RESPONSE_SERVER_EXCEPTION, 0, 0⟩).value =
      .error ⟨"Error declaring queue.", some ⟨AMQP_RESPONSE_SERVER_EXCEPTION, 0, 0⟩⟩ :=
  (command_fails_on_abnormal_reply ⟨⟨[]⟩, 1⟩ ⟨AMQP_RESPONSE_SERVER_EXCEPTION, 0, 0⟩ "jobs" ⟨[]⟩
    ⟨none⟩ "jobs" "ex" "key" ⟨"jobs", ""⟩ ⟨[]⟩ ⟨[]⟩ [.received .heartbeat]
    (by decide) (by decide)).1.1

/-- C6, as stated, fails: an empty name is rejected with the validation error
although the PASSIVE flag is requested. -/
theorem declareQueue_empty_name_passive_rejected :
    ((⟨⟨[]⟩, 1⟩ : Channel).declareQueueArgs "" ⟨[.QUEUE_PASSIVE]⟩ ⟨some "amq.gen-1"⟩
        ⟨AMQP_RESPONSE_NORMAL, 0, 0⟩).value = .error ⟨"The queue must have a name", none⟩ ∧
      ¬ ("".length = 0 ∧
        (⟨[.QUEUE_PASSIVE]⟩ : FlagSet QueueArg).test .QUEUE_PASSIVE = false) := by
  constructor
  · simp [Channel.declareQueueArgs, Channel.sendDeclareCommand]
  · simp [FlagSet.test]

/-- C6, amended: `declareQueue(name, flags)` fails with the validation error if
and only if `name` is empty, whatever the flags; when it fails this way the
channel is unchanged, so no command has been sent. -/
theorem declareQueue_validation (self : Channel) (name : String) (args : FlagSet QueueArg)
    (r : amqp_queue_declare_ok_t) (ret : amqp_rpc_reply_t) :
    ((self.declareQueueArgs name args r ret).value =
        .error ⟨"The queue must have a name", none⟩ ↔ name.length = 0) ∧
      ((self.declareQueueArgs name args r ret).value =
        .error ⟨"The queue must have a name", none⟩ →
          (self.declareQueueArgs name args r ret).channel = self) := by
  by_cases hname : name.length = 0
  · simp [Channel.declareQueueArgs, Channel.sendDeclareCommand, hname]
  · have hne : (self.declareQueueArgs name args r ret).value ≠
        .error ⟨"The queue must have a name", none⟩ := by
      simp only [Channel.declareQueueArgs, Channel.sendDeclareCommand, if_neg hname]
      by_cases hret : ret.reply_type ≠ AMQP_RESPONSE_NORMAL
      · simp [if_pos hret]
      · rw [if_neg hret]
        cases r.queue <;> simp
    exact ⟨⟨fun h => absurd h hne, fun h => absurd h hname⟩, fun h => absurd h hne⟩

/-- C6 amended, at the empty name with the PASSIVE flag on a channel that has
already sent a command. -/
theorem declareQueue_validation_witness :
    ((⟨⟨[.channel_open 1]⟩, 1⟩ : Channel).declareQueueArgs "" ⟨[.QUEUE_PASSIVE]⟩ ⟨none⟩
        ⟨AMQP_RESPONSE_NORMAL, 0, 0⟩).channel = ⟨⟨[.channel_open 1]⟩, 1⟩ :=
  (declareQueue_validation ⟨⟨[.channel_open 1]⟩, 1⟩ "" ⟨[.QUEUE_PASSIVE]⟩ ⟨none⟩
    ⟨AMQP_RESPONSE_NORMAL, 0, 0⟩).2
    ((declareQueue_validation ⟨⟨[.channel_open 1]⟩, 1⟩ "" ⟨[.QUEUE_PASSIVE]⟩ ⟨none⟩
      ⟨AMQP_RESPONSE_NORMAL, 0, 0⟩).1.mpr rfl)

theorem amqp_cstring_bytes_of_no_nul (name : String)
    (hnul : ∀ c ∈ name.data, c ≠ Char.ofNat 0) : amqp_cstring_bytes name = name := by
  have h : name.data.takeWhile (fun c => decide (c ≠ Char.ofNat 0)) = name.data := by
    rw [List.takeWhile_eq_self_iff]
    intro c hc
    simpa using hnul c hc
  simp only [amqp_cstring_bytes]
  rw [h]

/-- C7, as stated, fails: the name `a NUL b` is not empty, the name sent is `a`,
the broker answers NORMAL and echoes `a`, and the queue returned is named `a`. -/
theorem declareQueue_name_cut_at_nul :
    (String.mk [Char.ofNat 97, Char.ofNat 0, Char.ofNat 98]).length ≠ 0 ∧
      amqp_cstring_bytes (String.mk [Char.ofNat 97, Char.ofNat 0, Char.ofNat 98]) = "a" ∧
      ((⟨⟨[]⟩, 1⟩ : Channel).declareQueueArgs
        (String.mk [Char.ofNat 97, Char.ofNat 0, Char.ofNat 98]) ⟨[]⟩ ⟨some "a"⟩
        ⟨AMQP_RESPONSE_NORMAL, 0, 0⟩).value = .ok ⟨"a", ""⟩ ∧
      "a" ≠ String.mk [Char.ofNat 97, Char.ofNat 0, Char.ofNat 98] := by
  refine ⟨by decide, by decide, ?_, by decide⟩
  have hlen : (String.mk [Char.ofNat 97, Char.ofNat 0, Char.ofNat 98]).length ≠ 0 := by decide
  simp only [Channel.declareQueueArgs, Channel.sendDeclareCommand, if_neg hlen]
  simp [AMQP_RESPONSE_NORMAL]

/-- C7, amended: for every non-empty name without a NUL character and every flag
set, when the reply to the declare command is NORMAL and carries the queue name
that was sent, `declareQueue` returns a queue whose name is the input name. -/
theorem declareQueue_returns_name (self : Channel) (name : String) (args : FlagSet QueueArg)
    (r : amqp_queue_declare_ok_t) (ret : amqp_rpc_reply_t)
    (hname : name.length ≠ 0) (hnul : ∀ c ∈ name.data, c ≠ Char.ofNat 0)
    (hret : ret.reply_type = AMQP_RESPONSE_NORMAL)
    (hecho : r.queue = some (amqp_cstring_bytes name)) :
    ∃ q : Queue, (self.declareQueueArgs name args r ret).value = .ok q ∧ q.name = name := by
  rw [amqp_cstring_bytes_of_no_nul name hnul] at hecho
  refine ⟨⟨name, ""⟩, ?_, rfl⟩
  simp [Channel.declareQueueArgs, Channel.sendDeclareCommand, hname, hret, hecho]

/-- C7 amended, at the durable queue `jobs`. -/
theorem declareQueue_returns_name_witness :
    ∃ q : Queue, ((⟨⟨[]⟩, 1⟩ : Channel).declareQueueArgs "jobs" ⟨[.QUEUE_DURABLE]⟩
        ⟨some "jobs"⟩ ⟨AMQP_RESPONSE_NORMAL, 0, 0⟩).value = .ok q ∧ q.name = "jobs" :=
  declareQueue_returns_name ⟨⟨[]⟩, 1⟩ "jobs" ⟨[.QUEUE_DURABLE]⟩ ⟨some "jobs"⟩
    ⟨AMQP_RESPONSE_NORMAL, 0, 0⟩ (by decide) (by decide) rfl (by decide)

/-! ## Lifecycle: claims -/

/-- The destructor sends exactly one `channel.close` for the channel's own number
with reply code `AMQP_REPLY_SUCCESS`, whatever was sent before.  It returns if
and only if the reply is NORMAL; otherwise the exception built with the reply
ends the program, and in no case does an exception reach the caller. -/
theorem dtor_closes_channel (self : Channel) (ret : amqp_rpc_reply_t) :
    (self.dtor ret).conn.sent =
        self.conn_.sent ++ [.channel_close self.number_ AMQP_REPLY_SUCCESS] ∧
      AMQP_REPLY_SUCCESS = 200 ∧
      ((self.dtor ret).outcome = .terminated ⟨"Error closing channel.", some ret⟩ ↔
        ret.reply_type ≠ AMQP_RESPONSE_NORMAL) ∧
      ((self.dtor ret).outcome = .completed ↔ ret.reply_type = AMQP_RESPONSE_NORMAL) ∧
      (∀ e : Exception, (self.dtor ret).outcome ≠ .raised e) := by
  by_cases hret : ret.reply_type = AMQP_RESPONSE_NORMAL
  · simp [Channel.dtor, hret, Connection.send, AMQP_REPLY_SUCCESS]
  · simp [Channel.dtor, hret, Connection.send, AMQP_REPLY_SUCCESS]

/-- C8: the channel-close request is sent once, for channel 1 with reply code
200, after the command sent before; but on a server exception answering it the
destructor raises nothing to its caller: the exception carrying the reply ends
the program. -/
theorem dtor_terminates_on_server_exception :
    (⟨⟨[.channel_open 1]⟩, 1⟩ : Channel).dtor ⟨AMQP_RESPONSE_SERVER_EXCEPTION, 0, 0⟩ =
        ⟨⟨[.channel_open 1, .channel_close 1 200]⟩,
          .terminated ⟨"Error closing channel.",
            some ⟨AMQP_RESPONSE_SERVER_EXCEPTION, 0, 0⟩⟩⟩ ∧
      (∀ e : Exception,
        ((⟨⟨[.channel_open 1]⟩, 1⟩ : Channel).dtor
          ⟨AMQP_RESPONSE_SERVER_EXCEPTION, 0, 0⟩).outcome ≠ .raised e) := by
  constructor
  · rfl
  · intro e
    simp [Channel.dtor, AMQP_RESPONSE_SERVER_EXCEPTION, AMQP_RESPONSE_NORMAL]

/-- The constructor sends `channel.open` for the given number and returns the
channel whatever the broker answers; it never throws. -/
theorem ctor_ignores_reply (conn : Connection) (number : Int) (reply : amqp_rpc_reply_t) :
    Channel.ctor conn number reply =
      .ok ⟨⟨conn.sent ++ [.channel_open number]⟩, number⟩ := rfl

/-- C9, at a server exception answering `channel.open` for channel 1: the
constructor succeeds. -/
theorem ctor_succeeds_on_server_exception :
    Channel.ctor ⟨[]⟩ 1 ⟨AMQP_RESPONSE_SERVER_EXCEPTION, 0, 0⟩ =
      .ok ⟨⟨[.channel_open 1]⟩, 1⟩ := rfl

/-- C10: after a header announcing one byte, a body frame of two bytes is copied
at offset 0 into the one-byte buffer, past its end, and the message is built
although two bytes, not one, were counted. -/
theorem bodyLoop_copies_past_buffer :
    ((⟨⟨[]⟩, 1⟩ : Channel).basicConsumeArgs ⟨"q", ""⟩ ⟨[]⟩ ⟨AMQP_RESPONSE_NORMAL, 0, 0⟩
        [.received (.method AMQP_BASIC_DELIVER_METHOD), .received (.header 1),
          .received (.body [1, 2])]).run.copies = [⟨0, 2, 1⟩] ∧
      ¬ (0 + 2 ≤ 1) ∧
      ((⟨⟨[]⟩, 1⟩ : Channel).basicConsumeArgs ⟨"q", ""⟩ ⟨[]⟩ ⟨AMQP_RESPONSE_NORMAL, 0, 0⟩
        [.received (.method AMQP_BASIC_DELIVER_METHOD), .received (.header 1),
          .received (.body [1, 2])]).run.notified = [⟨[1], 1⟩] := by
  have h1 : 1 % SIZE_T_RANGE = 1 := by decide
  rw [basicConsumeArgs_run _ _ _ _ _ rfl, consumeLoop_delivery, h1,
    bodyLoop_body _ _ _ _ _ (by decide), bodyLoop_done _ _ _ _ (by decide), consumeLoop_nil]
  simp [Message.ofBytes, memcpy, amqp_bytes_malloc]

end ideup.amqp
